import Mathlib

/-!
Verification of the audio-environment lifecycle subsystem of the realtime
transcription tool: device classification, environment preparation with
rollback, module snapshot diffing, diagnostics, and the easy-start
environment-variable handling.

The Lean definitions below are a shallow embedding of
`transcriber/audio_setup.py` and `transcriber/cli.py`.  External
collaborators (the PortAudio enumeration, `pactl`, helper scripts, the
process environment) are modelled as explicit inputs; their observable
invocations are recorded as explicit effect values.
-/

namespace Transcriber

/-! ## String helpers

Python lowercases device names with `str.lower()` and tests keyword
membership with the `in` operator (substring containment).  We model both
over `List Char`. -/

/-- Lowercase a string character by character (model of `str.lower()`). -/
def lowerStr (s : String) : String :=
  String.mk (s.data.map Char.toLower)

/-- Boolean test that the first character list starts the second. -/
def charsStartWith : List Char → List Char → Bool
  | [], _ => true
  | _ :: _, [] => false
  | a :: as, b :: bs => a == b && charsStartWith as bs

/-- Boolean test that the first character list occurs contiguously inside the
second. -/
def charsInfixOf (needle : List Char) : List Char → Bool
  | [] => needle.isEmpty
  | b :: bs => charsStartWith needle (b :: bs) || charsInfixOf needle bs

/-- Substring containment (model of the Python expression `needle in hay`). -/
def containsStr (hay needle : String) : Bool :=
  charsInfixOf needle.data hay.data

/-! ## Platform, capture mode, configuration, devices -/

/-- The result of `platform.system().lower()`, abstracted to the cases the
source distinguishes. -/
inductive Platform
  | linux
  | windows
  | darwin
  | otherOS
deriving DecidableEq

/-- `AudioCaptureMode` from `transcriber/config.py` as used by the subsystem. -/
inductive AudioCaptureMode
  | auto
  | microphone
  | loopback
  | api
deriving DecidableEq

/-- The configuration fields of `AudioInputConfig` consumed by the subsystem:
optional device index, capture mode, auto-setup flag, optional Linux sink
name hint. -/
structure AudioInputConfig where
  deviceIndex : Option Int
  mode : AudioCaptureMode
  autoSetupLoopback : Bool
  linuxLoopbackSink : Option String
deriving DecidableEq

/-- One entry of the `sounddevice.query_devices()` result: the dictionary
fields the subsystem reads.  `default_samplerate` is a float the claims never
touch, so it is omitted from the embedding. -/
structure RawDevice where
  name : String
  maxInputChannels : Nat
  maxOutputChannels : Nat
  hostapi : Int
deriving DecidableEq

/-- `resolve_capture_mode` (audio_setup.py lines 482-499): `AUTO` becomes
`LOOPBACK` on Linux/Windows/macOS and `MICROPHONE` elsewhere; explicit modes
pass through. -/
def resolveCaptureMode (plat : Platform) (cfg : AudioInputConfig) : AudioCaptureMode :=
  match cfg.mode with
  | AudioCaptureMode.auto =>
    match plat with
    | Platform.linux => AudioCaptureMode.loopback
    | Platform.windows => AudioCaptureMode.loopback
    | Platform.darwin => AudioCaptureMode.loopback
    | Platform.otherOS => AudioCaptureMode.microphone
  | m => m

/-! ## Loopback candidate detection (`_detect_loopback_candidate`)

audio_setup.py lines 270-312.  The sink hint is taken from
`config.linux_loopback_sink` only on Linux and only when the configured
string is truthy (non-empty). -/

/-- Sink-hint normalisation performed at the top of
`_detect_loopback_candidate` (lines 277-281): lowercased configured sink on
Linux when truthy, otherwise absent. -/
def normalizeSinkHint (plat : Platform) (sinkCfg : Option String) : Option String :=
  if plat = Platform.linux then
    match sinkCfg with
    | some s => if s == "" then none else some (lowerStr s)
    | none => none
  else none

/-- Per-device candidate test inside the loop of `_detect_loopback_candidate`
(lines 283-310).  Devices without input channels are skipped; the keyword
test is followed by the platform-specific extra rules.  The Python pattern
`if not is_candidate and X: is_candidate = True` is embedded as disjunction. -/
def detectCandidatePred (plat : Platform) (sinkHint : Option String)
    (keywordSet : List String) (d : RawDevice) : Bool :=
  if d.maxInputChannels == 0 then
    false
  else
    let name := lowerStr d.name
    let isCandidate := keywordSet.any (fun kw => containsStr name kw)
    if plat = Platform.linux then
      let isCandidate := isCandidate ||
        (match sinkHint with
         | some hint => containsStr name hint
         | none => false)
      isCandidate ||
        ((name == "pipewire" || name == "default") && decide (2 ≤ d.maxInputChannels))
    else if plat = Platform.windows then
      isCandidate || (containsStr name ("loopback") && containsStr name ("wasapi"))
    else if plat = Platform.darwin then
      isCandidate || containsStr name ("blackhole")
    else
      isCandidate

/-- `AudioEnvironmentManager._detect_loopback_candidate`: lowercases the
caller-supplied keywords, normalises the sink hint, and returns whether any
enumerated device passes the candidate test (the source returns `True` on
the first hit, which is `List.any`). -/
def detectLoopbackCandidate (plat : Platform) (sinkCfg : Option String)
    (keywords : List String) (devices : List RawDevice) : Bool :=
  let keywordSet := keywords.map lowerStr
  let sinkHint := normalizeSinkHint plat sinkCfg
  devices.any (detectCandidatePred plat sinkHint keywordSet)

/-- The keyword sets the preparation paths pass to
`_detect_loopback_candidate` (lines 145/171, 241-243, 263-265); preparation
never calls the detector on an unsupported platform, rendered here as the
empty set. -/
def prepareLoopbackKeywords : Platform → List String
  | Platform.linux => ["monitor", "loopback"]
  | Platform.windows => ["loopback", "stereo mix", "cable output", "cable input", "virtual"]
  | Platform.darwin => ["blackhole", "loopback", "soundflower", "aggregate", "multi-output"]
  | Platform.otherOS => []

example : detectLoopbackCandidate Platform.linux none (["monitor", "loopback"])
    [⟨"Monitor of Built-in Audio", 2, 0, 0⟩] = true := by decide

example : detectLoopbackCandidate Platform.linux none (["monitor", "loopback"])
    [⟨"USB Microphone", 1, 0, 0⟩] = false := by decide

example : detectLoopbackCandidate Platform.linux (some ("My_Sink")) (["monitor", "loopback"])
    [⟨"My_Sink Plus", 1, 0, 0⟩] = true := by decide

example : detectLoopbackCandidate Platform.linux none (["monitor", "loopback"])
    [⟨"pipewire", 2, 0, 0⟩] = true := by decide

example : detectLoopbackCandidate Platform.linux none (["monitor", "loopback"])
    [⟨"pipewire", 1, 0, 0⟩] = false := by decide

/-! ## Diagnostics (`collect_audio_diagnostics`)

audio_setup.py lines 315-420.  The diagnostics path re-implements the same
classification rules in its own loop (lines 353-383); we embed that second
copy separately so that the claimed prepare/diagnose agreement is a theorem
about two independent definitions. -/

/-- `AudioDeviceSummary` (audio_setup.py lines 23-32), without the float
sample-rate field which no claim touches. -/
structure AudioDeviceSummary where
  index : Nat
  name : String
  hostapi : String
  inputs : Nat
  outputs : Nat
deriving DecidableEq

/-- `_hostapi_name` (lines 315-322): resolve a host-API index to its name,
falling back to the rendered index on lookup failure. -/
def hostapiName (hostapis : List String) (index : Int) : String :=
  if 0 ≤ index then hostapis.getD index.toNat (toString index) else toString index

/-- `_summarise_devices` (lines 325-338): one summary per enumerated device,
carrying the enumeration index. -/
def summariseFrom (hostapis : List String) : Nat → List RawDevice → List AudioDeviceSummary
  | _, [] => []
  | i, d :: rest =>
    { index := i
      name := d.name
      hostapi := hostapiName hostapis d.hostapi
      inputs := d.maxInputChannels
      outputs := d.maxOutputChannels } :: summariseFrom hostapis (i + 1) rest

/-- Issue messages `collect_audio_diagnostics` can append (lines 392-403),
abstracted from their Japanese message strings. -/
inductive DiagnosticIssue
  | noInputDevices
  | noLoopbackCandidates
deriving DecidableEq

/-- Recommendation messages `collect_audio_diagnostics` can append (lines
396-410), abstracted from their message strings; `candidateNames` carries the
names of the first three candidates that the source joins into one line. -/
inductive DiagnosticRecommendation
  | pinDeviceIndex
  | verifyConfiguredIndexRoute
  | candidateNames (names : List String)
deriving DecidableEq

/-- `AudioDiagnosticReport` (lines 35-45). -/
structure AudioDiagnosticReport where
  reportPlatform : Platform
  mode : AudioCaptureMode
  inputDevices : List AudioDeviceSummary
  loopbackCandidates : List AudioDeviceSummary
  configuredDevice : Option AudioDeviceSummary
  issues : List DiagnosticIssue
  recommendations : List DiagnosticRecommendation
deriving DecidableEq

/-- The keyword table literal inside `collect_audio_diagnostics` (lines
353-357), with `dict.get(platform_key, set())` rendered as the empty list for
an unknown platform. -/
def collectKeywordTable : Platform → List String
  | Platform.linux => ["monitor", "loopback"]
  | Platform.windows => ["loopback", "stereo mix", "cable output", "cable input", "virtual"]
  | Platform.darwin => ["blackhole", "loopback", "soundflower", "aggregate", "multi-output"]
  | Platform.otherOS => []

/-- The sink-hint normalisation inside `collect_audio_diagnostics` (lines
362-366), a second copy of the one in the detector. -/
def collectSinkHint (plat : Platform) (sinkCfg : Option String) : Option String :=
  if plat = Platform.linux then
    match sinkCfg with
    | some s => if s == "" then none else some (lowerStr s)
    | none => none
  else none

/-- Per-summary candidate test of the diagnostics loop (lines 367-380); it
runs over the already input-filtered summaries, so it has no input-channel
guard of its own. -/
def collectCandidatePred (plat : Platform) (sinkHint : Option String)
    (keywordSet : List String) (s : AudioDeviceSummary) : Bool :=
  let lowered := lowerStr s.name
  let isCandidate := keywordSet.any (fun kw => containsStr lowered kw)
  if plat = Platform.linux then
    let isCandidate := isCandidate ||
      (match sinkHint with
       | some hint => containsStr lowered hint
       | none => false)
    isCandidate ||
      ((lowered == "pipewire" || lowered == "default") && decide (2 ≤ s.inputs))
  else if plat = Platform.windows then
    isCandidate || (containsStr lowered ("loopback") && containsStr lowered ("wasapi"))
  else if plat = Platform.darwin then
    isCandidate || containsStr lowered ("blackhole")
  else
    isCandidate

/-- `collect_audio_diagnostics` (lines 341-420): summarise the enumeration,
filter to input-capable devices, classify candidates with the diagnostics
copy of the rules, match the configured index, and derive issues and
recommendations in source order. -/
def collectAudioDiagnostics (plat : Platform) (hostapis : List String)
    (cfg : AudioInputConfig) (devices : List RawDevice) : AudioDiagnosticReport :=
  let summaries := summariseFrom hostapis 0 devices
  let inputSummaries := summaries.filter (fun s => decide (0 < s.inputs))
  let keywordSet := (collectKeywordTable plat).map lowerStr
  let sinkHint := collectSinkHint plat cfg.linuxLoopbackSink
  let loopbackCandidates := inputSummaries.filter (collectCandidatePred plat sinkHint keywordSet)
  let configuredDevice : Option AudioDeviceSummary :=
    match cfg.deviceIndex with
    | some i => if 0 ≤ i then summaries[i.toNat]? else none
    | none => none
  let effectiveMode := resolveCaptureMode plat cfg
  let issues : List DiagnosticIssue :=
    (if inputSummaries = [] then [DiagnosticIssue.noInputDevices] else []) ++
    (if effectiveMode = AudioCaptureMode.loopback ∧ loopbackCandidates = [] ∧
        cfg.deviceIndex = none then
      [DiagnosticIssue.noLoopbackCandidates]
    else [])
  let recommendations : List DiagnosticRecommendation :=
    (if cfg.deviceIndex = none ∧ inputSummaries ≠ [] then
      [DiagnosticRecommendation.pinDeviceIndex]
    else []) ++
    (if effectiveMode = AudioCaptureMode.loopback ∧ loopbackCandidates = [] ∧
        cfg.deviceIndex ≠ none then
      [DiagnosticRecommendation.verifyConfiguredIndexRoute]
    else []) ++
    (if effectiveMode = AudioCaptureMode.loopback ∧ loopbackCandidates ≠ [] then
      [DiagnosticRecommendation.candidateNames ((loopbackCandidates.take 3).map (fun c => c.name))]
    else [])
  { reportPlatform := plat
    mode := effectiveMode
    inputDevices := inputSummaries
    loopbackCandidates := loopbackCandidates
    configuredDevice := configuredDevice
    issues := issues
    recommendations := recommendations }

example :
    (collectAudioDiagnostics Platform.linux []
      ⟨none, AudioCaptureMode.loopback, true, none⟩
      [⟨"Built-in Microphone", 1, 0, 0⟩]).issues = [DiagnosticIssue.noLoopbackCandidates] := by
  decide

example :
    (collectAudioDiagnostics Platform.linux []
      ⟨none, AudioCaptureMode.loopback, true, none⟩
      [⟨"Built-in Microphone", 1, 0, 0⟩]).recommendations =
      [DiagnosticRecommendation.pinDeviceIndex] := by
  decide

/-! ## Environment preparation (`AudioEnvironmentManager.prepare`)

audio_setup.py lines 48-268.  Every `raise AudioEnvironmentError(...)` site
becomes one constructor below, keyed by its message; external observations
and mutations performed along the way are recorded as an effect trace, and
entries pushed onto `self._cleanup_actions` are recorded as registered
rollbacks. -/

/-- The distinct `AudioEnvironmentError` raise sites of audio_setup.py.  The
specification groups them into a taxonomy via `isDeviceUnavailable` and
`isNoLoopbackDetected` below. -/
inductive AudioEnvError
  | enumerationFailure
  | noDevicesDetected
  | deviceIndexOutOfRange (index : Int) (count : Nat)
  | configuredDeviceNoInput (name : String)
  | noInputCapableDevices
  | flagSetButNoMonitor
  | loopbackSetupFailure
  | noLoopbackDetectedAfterSetup
  | noWindowsLoopbackDetected
  | noMacosLoopbackDetected
deriving DecidableEq

/-- Errors that the specification taxonomy files under DeviceUnavailable
(no, or invalid, configured input device). -/
def isDeviceUnavailable : AudioEnvError → Bool
  | AudioEnvError.noDevicesDetected => true
  | AudioEnvError.deviceIndexOutOfRange _ _ => true
  | AudioEnvError.configuredDeviceNoInput _ => true
  | AudioEnvError.noInputCapableDevices => true
  | _ => false

/-- Errors that the specification taxonomy files under NoLoopbackDetected
(classifier found nothing and no explicit override exists). -/
def isNoLoopbackDetected : AudioEnvError → Bool
  | AudioEnvError.flagSetButNoMonitor => true
  | AudioEnvError.noLoopbackDetectedAfterSetup => true
  | AudioEnvError.noWindowsLoopbackDetected => true
  | AudioEnvError.noMacosLoopbackDetected => true
  | _ => false

/-- Whether a `prepare` call returned normally or raised. -/
inductive PrepResult
  | ok
  | err (e : AudioEnvError)
deriving DecidableEq

/-- Observable external interactions of `prepare`: log warnings, the
`pactl info` defaults query, helper-script invocations (the Linux one
carrying the optional `HEADPHONE_SINK` override), and candidate-detection
queries of the device enumeration. -/
inductive PrepEffect
  | warnPactlMissing
  | warnUnsupportedPlatform
  | logApiMode
  | queryLinuxDefaults
  | runLinuxScript (sinkHintEnv : Option String)
  | runWindowsScript
  | runMacosScript
  | detectQuery
deriving DecidableEq

/-- Effects that mutate system state (helper-script invocations); queries and
log lines do not. -/
def isMutationEffect : PrepEffect → Bool
  | PrepEffect.runLinuxScript _ => true
  | PrepEffect.runWindowsScript => true
  | PrepEffect.runMacosScript => true
  | _ => false

/-- The only rollback action `prepare` ever registers: restoring the captured
default sink and source (`_register_linux_defaults_restore`, lines 199-210). -/
inductive RollbackReg
  | restoreDefaults (sink source : Option String)
deriving DecidableEq

/-- Result of a `prepare` run: outcome, effect trace in execution order, and
the rollback actions registered during the run. -/
structure PrepareOutcome where
  result : PrepResult
  effects : List PrepEffect
  rollbacks : List RollbackReg
deriving DecidableEq

/-- The external world `prepare` interacts with: platform, the device
enumeration, tool availability on PATH, the launcher environment flag
`AUDIO_LOOPBACK_ALREADY_SET`, helper-script presence and exit status, and
what `_get_linux_defaults` would parse out of `pactl info`. -/
structure PrepareWorld where
  sysPlatform : Platform
  devices : List RawDevice
  pactlAvailable : Bool
  powershellAvailable : Bool
  loopbackAlreadySetEnv : Option String
  linuxScriptExists : Bool
  windowsScriptExists : Bool
  macosScriptExists : Bool
  linuxScriptSucceeds : Bool
  windowsScriptSucceeds : Bool
  macosScriptSucceeds : Bool
  linuxDefaults : Option (Option String × Option String)
deriving DecidableEq

/-- `_ensure_device_presence` (lines 91-119): empty enumeration fails; a
configured index must be in range and input-capable; otherwise at least one
input-capable device must exist. -/
def ensureDevicePresence (devices : List RawDevice) (cfg : AudioInputConfig) : PrepResult :=
  if devices.isEmpty then
    PrepResult.err AudioEnvError.noDevicesDetected
  else
    match cfg.deviceIndex with
    | some index =>
      if index < 0 ∨ (devices.length : Int) ≤ index then
        PrepResult.err (AudioEnvError.deviceIndexOutOfRange index devices.length)
      else
        match devices[index.toNat]? with
        | some device =>
          if device.maxInputChannels == 0 then
            PrepResult.err (AudioEnvError.configuredDeviceNoInput device.name)
          else
            PrepResult.ok
        | none => PrepResult.err (AudioEnvError.deviceIndexOutOfRange index devices.length)
    | none =>
      if devices.any (fun d => decide (0 < d.maxInputChannels)) then
        PrepResult.ok
      else
        PrepResult.err AudioEnvError.noInputCapableDevices

/-- The `HEADPHONE_SINK` override passed to the Linux helper script when the
configured sink is truthy (lines 159-160). -/
def linuxScriptSinkEnv (cfg : AudioInputConfig) : Option String :=
  match cfg.linuxLoopbackSink with
  | some s => if s == "" then none else some s
  | none => none

/-- `_prepare_linux_loopback` (lines 134-180): missing `pactl` only warns;
the launcher flag short-circuits to a verification-only path; otherwise
auto-setup captures defaults, registers their restoration, runs the helper
script (fatal on failure), and finally re-detects a candidate unless an
explicit device index is configured. -/
def prepareLinuxLoopback (w : PrepareWorld) (cfg : AudioInputConfig) : PrepareOutcome :=
  if !w.pactlAvailable then
    { result := PrepResult.ok, effects := [PrepEffect.warnPactlMissing], rollbacks := [] }
  else if w.loopbackAlreadySetEnv == some ("1") then
    match cfg.deviceIndex with
    | none =>
      if detectLoopbackCandidate Platform.linux cfg.linuxLoopbackSink
          (["monitor", "loopback"]) w.devices then
        { result := PrepResult.ok, effects := [PrepEffect.detectQuery], rollbacks := [] }
      else
        { result := PrepResult.err AudioEnvError.flagSetButNoMonitor
          effects := [PrepEffect.detectQuery], rollbacks := [] }
    | some _ => { result := PrepResult.ok, effects := [], rollbacks := [] }
  else
    let setupEffects : List PrepEffect :=
      if cfg.autoSetupLoopback then
        if w.linuxScriptExists then
          [PrepEffect.queryLinuxDefaults, PrepEffect.runLinuxScript (linuxScriptSinkEnv cfg)]
        else
          [PrepEffect.queryLinuxDefaults]
      else []
    let setupRollbacks : List RollbackReg :=
      if cfg.autoSetupLoopback then
        match w.linuxDefaults with
        | some (sink, source) => [RollbackReg.restoreDefaults sink source]
        | none => []
      else []
    if cfg.autoSetupLoopback ∧ w.linuxScriptExists ∧ !w.linuxScriptSucceeds then
      { result := PrepResult.err AudioEnvError.loopbackSetupFailure
        effects := setupEffects, rollbacks := setupRollbacks }
    else
      if detectLoopbackCandidate Platform.linux cfg.linuxLoopbackSink
          (["monitor", "loopback"]) w.devices then
        { result := PrepResult.ok, effects := setupEffects ++ [PrepEffect.detectQuery]
          rollbacks := setupRollbacks }
      else
        match cfg.deviceIndex with
        | none =>
          { result := PrepResult.err AudioEnvError.noLoopbackDetectedAfterSetup
            effects := setupEffects ++ [PrepEffect.detectQuery], rollbacks := setupRollbacks }
        | some _ =>
          { result := PrepResult.ok, effects := setupEffects ++ [PrepEffect.detectQuery]
            rollbacks := setupRollbacks }

/-- `_prepare_windows_loopback` (lines 212-247): the helper script is
optional and its failure non-fatal; afterwards a candidate is required unless
an explicit device index is configured (the detector is short-circuited away
when an index is set). -/
def prepareWindowsLoopback (w : PrepareWorld) (cfg : AudioInputConfig) : PrepareOutcome :=
  let setupEffects : List PrepEffect :=
    if cfg.autoSetupLoopback ∧ w.windowsScriptExists ∧ w.powershellAvailable then
      [PrepEffect.runWindowsScript]
    else []
  match cfg.deviceIndex with
  | none =>
    if detectLoopbackCandidate Platform.windows cfg.linuxLoopbackSink
        (["loopback", "stereo mix", "cable output", "cable input", "virtual"]) w.devices then
      { result := PrepResult.ok, effects := setupEffects ++ [PrepEffect.detectQuery]
        rollbacks := [] }
    else
      { result := PrepResult.err AudioEnvError.noWindowsLoopbackDetected
        effects := setupEffects ++ [PrepEffect.detectQuery], rollbacks := [] }
  | some _ => { result := PrepResult.ok, effects := setupEffects, rollbacks := [] }

/-- `_prepare_macos_loopback` (lines 249-268), same shape as the Windows
path with the macOS keyword set. -/
def prepareMacosLoopback (w : PrepareWorld) (cfg : AudioInputConfig) : PrepareOutcome :=
  let setupEffects : List PrepEffect :=
    if cfg.autoSetupLoopback ∧ w.macosScriptExists then
      [PrepEffect.runMacosScript]
    else []
  match cfg.deviceIndex with
  | none =>
    if detectLoopbackCandidate Platform.darwin cfg.linuxLoopbackSink
        (["blackhole", "loopback", "soundflower", "aggregate", "multi-output"]) w.devices then
      { result := PrepResult.ok, effects := setupEffects ++ [PrepEffect.detectQuery]
        rollbacks := [] }
    else
      { result := PrepResult.err AudioEnvError.noMacosLoopbackDetected
        effects := setupEffects ++ [PrepEffect.detectQuery], rollbacks := [] }
  | some _ => { result := PrepResult.ok, effects := setupEffects, rollbacks := [] }

/-- `AudioEnvironmentManager.prepare` (lines 58-79): resolve the mode, clear
the rollback stack, verify device presence, then branch per mode and
platform.  A residual `AUTO` mode (impossible after resolution) falls through
exactly like the source function body. -/
def prepare (w : PrepareWorld) (cfg : AudioInputConfig) : PrepareOutcome :=
  let mode := resolveCaptureMode w.sysPlatform cfg
  match ensureDevicePresence w.devices cfg with
  | PrepResult.err e => { result := PrepResult.err e, effects := [], rollbacks := [] }
  | PrepResult.ok =>
    match mode with
    | AudioCaptureMode.microphone => { result := PrepResult.ok, effects := [], rollbacks := [] }
    | AudioCaptureMode.api =>
      { result := PrepResult.ok, effects := [PrepEffect.logApiMode], rollbacks := [] }
    | AudioCaptureMode.auto => { result := PrepResult.ok, effects := [], rollbacks := [] }
    | AudioCaptureMode.loopback =>
      match w.sysPlatform with
      | Platform.linux => prepareLinuxLoopback w cfg
      | Platform.windows => prepareWindowsLoopback w cfg
      | Platform.darwin => prepareMacosLoopback w cfg
      | Platform.otherOS =>
        { result := PrepResult.ok, effects := [PrepEffect.warnUnsupportedPlatform]
          rollbacks := [] }

/-! ## Rollback stack (`AudioEnvironmentManager.cleanup`)

audio_setup.py lines 81-89.  `self._cleanup_actions` is a Python list used
as a stack: `append` pushes, `pop()` removes from the end.  We represent the
stack with its top as the Lean list head, so `append` is `cons` and the
drain loop is structural recursion.  An action is abstracted by an identity
and whether invoking it raises. -/

/-- An opaque registered rollback action: its identity and whether invoking
it raises. -/
structure RollbackAction where
  ident : Nat
  fails : Bool
deriving DecidableEq

/-- What the drain loop records for one popped action: it either executed or
raised and was logged (lines 86-89). -/
inductive CleanupEvent
  | executed (ident : Nat)
  | loggedFailure (ident : Nat)
deriving DecidableEq

/-- `self._cleanup_actions.append(action)`, with the stack top at the list
head. -/
def registerCleanup (a : RollbackAction) (stack : List RollbackAction) : List RollbackAction :=
  a :: stack

/-- One iteration body of the cleanup loop: invoke the popped action, turning
a raise into a logged failure. -/
def runCleanupAction (a : RollbackAction) : CleanupEvent :=
  if a.fails then CleanupEvent.loggedFailure a.ident else CleanupEvent.executed a.ident

/-- `cleanup` (lines 81-89): pop and run until the stack is empty, returning
the event trace in execution order together with the drained stack. -/
def cleanupDrain : List RollbackAction → List CleanupEvent × List RollbackAction
  | [] => ([], [])
  | a :: rest =>
    let r := cleanupDrain rest
    (runCleanupAction a :: r.1, r.2)

/-! ## Linux module snapshots (cli.py)

`_snapshot_linux_modules` (lines 150-170) builds `{"null": set, "loop": set}`
of module instance ids; `run_easy_start` (lines 244-245) subtracts the
before-snapshot from the after-snapshot per kind and `_unload_linux_modules`
(lines 173-177) unloads the `loop` entries before the `null` entries.  The
Python sets are represented as lists of ids with membership semantics. -/

/-- A `{"null": ..., "loop": ...}` module snapshot. -/
structure ModuleSnapshot where
  nullIds : List String
  loopIds : List String
deriving DecidableEq

/-- The per-kind set difference `after - before` computed in `run_easy_start`
(lines 244-245 and 254-255). -/
def moduleDiff (before after : ModuleSnapshot) : ModuleSnapshot :=
  { nullIds := after.nullIds.filter (fun i => !before.nullIds.contains i)
    loopIds := after.loopIds.filter (fun i => !before.loopIds.contains i) }

/-- `_unload_linux_modules` (lines 173-177): issue one unload command per
`loop` id, then one per `null` id; the returned list is the command order. -/
def unloadLinuxModules (m : ModuleSnapshot) : List String :=
  m.loopIds ++ m.nullIds

example :
    unloadLinuxModules (moduleDiff ⟨["1"], []⟩ ⟨["1", "2"], ["3"]⟩) = ["3", "2"] := by
  decide

/-! ## Easy-start environment-variable handling (cli.py lines 262-299)

Only the two variables `HEADPHONE_SINK` and `AUDIO_LOOPBACK_ALREADY_SET` are
touched; the process environment is projected onto them. -/

/-- The two process-environment hints `run_easy_start` manipulates. -/
structure EnvVars where
  headphoneSink : Option String
  loopbackAlreadySet : Option String
deriving DecidableEq

/-- How the `asyncio.run(run_pipeline(...))` call ends: normal return, a
raised exception, or signal-driven cooperative cancellation (`run_pipeline`
binds SIGINT/SIGTERM/SIGTSTP to cancel the task and returns).  All three
paths leave the `try` block and execute its `finally`. -/
inductive RunOutcome
  | completed
  | raisedError
  | cancelled
deriving DecidableEq

/-- Whether the launch branch sets `HEADPHONE_SINK` for the pipeline run:
only when defaults were captured before the script and their sink component
is truthy (lines 268-272). -/
def headphoneHintSetForRun (defaultsBeforeScript : Option (Option String × Option String)) : Bool :=
  match defaultsBeforeScript with
  | some (some s, _) => s != ""
  | _ => false

/-- The launch branch of `run_easy_start` (lines 265-289) projected onto the
two environment variables: capture previous values, set the hints, run the
pipeline (which never touches them), then in `finally` restore each variable
to the captured value or pop it when the captured value was `None`. -/
def easyStartPipelineEnv (system : Platform)
    (defaultsBeforeScript : Option (Option String × Option String))
    (env0 : EnvVars) (outcome : RunOutcome) : EnvVars :=
  let hPrev : Option String :=
    if system = Platform.linux then
      match defaultsBeforeScript with
      | some (some s, _) => if s == "" then none else env0.headphoneSink
      | _ => none
    else none
  let lPrev : Option String :=
    if system = Platform.linux then env0.loopbackAlreadySet else none
  let env1 : EnvVars :=
    if system = Platform.linux then
      let envA :=
        match defaultsBeforeScript with
        | some (some s, _) =>
          if s == "" then env0 else { env0 with headphoneSink := some s }
        | _ => env0
      { envA with loopbackAlreadySet := some ("1") }
    else env0
  let env2 : EnvVars :=
    match outcome with
    | RunOutcome.completed => env1
    | RunOutcome.raisedError => env1
    | RunOutcome.cancelled => env1
  if system = Platform.linux then
    let env3 :=
      match hPrev with
      | some v => { env2 with headphoneSink := some v }
      | none => { env2 with headphoneSink := none }
    match lPrev with
    | some v => { env3 with loopbackAlreadySet := some v }
    | none => { env3 with loopbackAlreadySet := none }
  else env2

/-- The decline branch of `run_easy_start` (lines 290-298) projected onto the
two environment variables: on Linux both are popped unconditionally. -/
def easyStartDeclineEnv (system : Platform) (env0 : EnvVars) : EnvVars :=
  if system = Platform.linux then
    { env0 with headphoneSink := none, loopbackAlreadySet := none }
  else env0

example :
    easyStartPipelineEnv Platform.linux (some (some ("sinkA"), none))
      ⟨some ("old"), none⟩ RunOutcome.cancelled = ⟨some ("old"), none⟩ := by
  decide

example :
    easyStartDeclineEnv Platform.linux ⟨some ("old"), some ("1")⟩ = ⟨none, none⟩ := by
  decide

/-! ## Spec-side predicates for claim C2

These two definitions transcribe the claim wording, not the source; they
exist to be compared against the source classifier. -/

/-- Candidate predicate transcribed from the wording of claim C2, whose sink
rule reads "its name case-insensitively equals the sink hint". -/
def claimC2LinuxCandidate (sinkCfg : Option String) (d : RawDevice) : Bool :=
  decide (0 < d.maxInputChannels) &&
  (containsStr (lowerStr d.name) ("monitor") ||
   containsStr (lowerStr d.name) ("loopback") ||
   (match sinkCfg with
    | some h => lowerStr d.name == lowerStr h
    | none => false) ||
   ((lowerStr d.name == "pipewire" || lowerStr d.name == "default") &&
     decide (2 ≤ d.maxInputChannels)))

/-- Candidate predicate of claim C2 amended to what the source implements:
the sink rule holds when the hint is non-empty and the lowercased name
contains the lowercased hint as a substring. -/
def amendedC2LinuxCandidate (sinkCfg : Option String) (d : RawDevice) : Bool :=
  decide (0 < d.maxInputChannels) &&
  (containsStr (lowerStr d.name) ("monitor") ||
   containsStr (lowerStr d.name) ("loopback") ||
   (match sinkCfg with
    | some h => h != "" && containsStr (lowerStr d.name) (lowerStr h)
    | none => false) ||
   ((lowerStr d.name == "pipewire" || lowerStr d.name == "default") &&
     decide (2 ≤ d.maxInputChannels)))

/-! ## Helper lemmas -/

/-- Lowercasing fixes the two Linux preparation keywords. -/
theorem lowerStr_monitor : lowerStr ("monitor") = ("monitor" : String) := by decide

/-- Lowercasing fixes the loopback keyword. -/
theorem lowerStr_loopback : lowerStr ("loopback") = ("loopback" : String) := by decide

/-- The Linux detector per-device test agrees with the amended claim-C2
predicate on every device and configured sink. -/
theorem detect_linux_pred_eq_amended (sinkCfg : Option String) (d : RawDevice) :
    detectCandidatePred Platform.linux (normalizeSinkHint Platform.linux sinkCfg)
      ((["monitor", "loopback"]).map lowerStr) d = amendedC2LinuxCandidate sinkCfg d := by
  cases hin : d.maxInputChannels with
  | zero =>
    simp [detectCandidatePred, amendedC2LinuxCandidate, hin]
  | succ n =>
    rcases sinkCfg with _ | s
    · simp [detectCandidatePred, amendedC2LinuxCandidate, normalizeSinkHint, hin,
        lowerStr_monitor, lowerStr_loopback, Bool.or_assoc]
    · by_cases hs : s == ("")
      · simp [detectCandidatePred, amendedC2LinuxCandidate, normalizeSinkHint, hin, hs,
          lowerStr_monitor, lowerStr_loopback, Bool.or_assoc, bne]
      · simp [detectCandidatePred, amendedC2LinuxCandidate, normalizeSinkHint, hin, hs,
          lowerStr_monitor, lowerStr_loopback, Bool.or_assoc, bne]

/-- Registering actions one after another piles them onto the stack in
reverse order: the last registration is the stack top. -/
theorem foldl_registerCleanup (acts : List RollbackAction) (stack : List RollbackAction) :
    acts.foldl (fun s a => registerCleanup a s) stack = acts.reverse ++ stack := by
  induction acts generalizing stack with
  | nil => simp
  | cons a rest ih => simp [registerCleanup, ih]

/-- The drain loop runs every stacked action top-down and empties the stack. -/
theorem cleanupDrain_spec (stack : List RollbackAction) :
    cleanupDrain stack = (stack.map runCleanupAction, []) := by
  induction stack with
  | nil => rfl
  | cons a rest ih => simp [cleanupDrain, ih]

/-- The per-summary diagnostics test, conjoined with the input-capability
filter, coincides with the per-device detector test. -/
theorem collect_pred_eq_detect_pred (plat : Platform) (sinkHint : Option String)
    (keywordSet : List String) (hostapis : List String) (i : Nat) (d : RawDevice) :
    (decide (0 < d.maxInputChannels) &&
      collectCandidatePred plat sinkHint keywordSet
        { index := i, name := d.name, hostapi := hostapiName hostapis d.hostapi,
          inputs := d.maxInputChannels, outputs := d.maxOutputChannels }) =
    detectCandidatePred plat sinkHint keywordSet d := by
  cases hin : d.maxInputChannels with
  | zero => simp [detectCandidatePred, collectCandidatePred, hin]
  | succ n => simp [detectCandidatePred, collectCandidatePred, hin]

/-- The diagnostics candidate list (input filter then rule filter) is empty
exactly when the detector finds no device, for identical hint and keywords. -/
theorem collect_candidates_nil_iff (plat : Platform) (sinkHint : Option String)
    (keywordSet : List String) (hostapis : List String) (devices : List RawDevice) :
    ∀ i : Nat,
      ((summariseFrom hostapis i devices).filter (fun s => decide (0 < s.inputs))).filter
          (collectCandidatePred plat sinkHint keywordSet) = [] ↔
        devices.any (detectCandidatePred plat sinkHint keywordSet) = false := by
  induction devices with
  | nil => intro i; simp [summariseFrom]
  | cons d rest ih =>
    intro i
    have htrans := collect_pred_eq_detect_pred plat sinkHint keywordSet hostapis i d
    by_cases h1 : decide (0 < d.maxInputChannels) = true
    · by_cases h2 : collectCandidatePred plat sinkHint keywordSet
        { index := i, name := d.name, hostapi := hostapiName hostapis d.hostapi,
          inputs := d.maxInputChannels, outputs := d.maxOutputChannels } = true
      · have hd : detectCandidatePred plat sinkHint keywordSet d = true := by
          rw [← htrans, h1, h2]; rfl
        simp [summariseFrom, List.filter_cons, h1, h2, hd]
      · have h2f : collectCandidatePred plat sinkHint keywordSet
            { index := i, name := d.name, hostapi := hostapiName hostapis d.hostapi,
              inputs := d.maxInputChannels, outputs := d.maxOutputChannels } = false := by
          simpa using h2
        have hd : detectCandidatePred plat sinkHint keywordSet d = false := by
          rw [← htrans, h1, h2f]; rfl
        simp only [summariseFrom, List.filter_cons, List.any_cons, hd, Bool.false_or]
        simp only [h1, eq_self_iff_true, if_true]
        simp only [List.filter_cons, h2f, Bool.false_eq_true, if_false]
        exact ih (i + 1)
    · have h1f : decide (0 < d.maxInputChannels) = false := by simpa using h1
      have hd : detectCandidatePred plat sinkHint keywordSet d = false := by
        rw [← htrans, h1f]; rfl
      simp only [summariseFrom, List.filter_cons, List.any_cons, hd, Bool.false_or]
      simp only [h1f]
      simp only [Bool.false_eq_true, if_false]
      exact ih (i + 1)

/-- The two copies of the sink-hint normalisation agree. -/
theorem collectSinkHint_eq_normalizeSinkHint :
    collectSinkHint = normalizeSinkHint := rfl

/-- The diagnostics keyword table matches the keyword sets the preparation
paths pass to the detector. -/
theorem collectKeywordTable_eq_prepareKeywords (plat : Platform) :
    collectKeywordTable plat = prepareLoopbackKeywords plat := by
  cases plat <;> rfl

/-! ## Claim theorems -/

/-- Claim C1: in an interactive easy-start launch on Linux, the hints
`AUDIO_LOOPBACK_ALREADY_SET` and, whenever it was set for the run,
`HEADPHONE_SINK` are restored to their exact prior state regardless of
whether the pipeline completed, raised, or was cancelled by a signal. -/
theorem c1_pipeline_env_restored (defaults : Option (Option String × Option String))
    (env0 : EnvVars) (outcome : RunOutcome) :
    (easyStartPipelineEnv Platform.linux defaults env0 outcome).loopbackAlreadySet =
      env0.loopbackAlreadySet ∧
    (headphoneHintSetForRun defaults = true →
      (easyStartPipelineEnv Platform.linux defaults env0 outcome).headphoneSink =
        env0.headphoneSink) := by
  obtain ⟨hs, ls⟩ := env0
  cases outcome <;> rcases defaults with _ | ⟨_ | s, src⟩ <;> cases hs <;> cases ls <;>
    simp [easyStartPipelineEnv, headphoneHintSetForRun] <;>
    by_cases hse : s == ("") <;> simp_all

/-- Witness for C1 at a concrete prior environment, captured defaults, and a
signal-cancelled run. -/
theorem c1_pipeline_env_restored_witness :
    (easyStartPipelineEnv Platform.linux (some (some ("alsa_output.pci"), some ("src")))
        ⟨some ("oldsink"), none⟩ RunOutcome.cancelled).loopbackAlreadySet = none ∧
    (easyStartPipelineEnv Platform.linux (some (some ("alsa_output.pci"), some ("src")))
        ⟨some ("oldsink"), none⟩ RunOutcome.cancelled).headphoneSink = some ("oldsink") := by
  have h := c1_pipeline_env_restored (some (some ("alsa_output.pci"), some ("src")))
    ⟨some ("oldsink"), none⟩ RunOutcome.cancelled
  exact ⟨h.1, h.2 (by decide)⟩

/-- Claim C2 (counterexample): an input-capable device whose name strictly
contains the configured sink hint without being equal to it is classified as
a loopback candidate by the source classifier, while the claim's
equality-based rule rejects it, so the claimed "if and only if" fails. -/
theorem c2_counterexample :
    detectLoopbackCandidate Platform.linux (some ("my_sink")) (["monitor", "loopback"])
      [⟨"My_Sink Plus", 1, 0, 0⟩] = true ∧
    claimC2LinuxCandidate (some ("my_sink")) ⟨"My_Sink Plus", 1, 0, 0⟩ = false := by
  decide

/-- Claim C2 as amended: on Linux a device is classified as a loopback
candidate if and only if it is input-capable and its lowercased name contains
"monitor" or "loopback", or the sink hint is non-empty and the lowercased
name contains the lowercased hint, or the name is "pipewire" or "default"
with at least 2 input channels. -/
theorem c2_amended_classification (sinkCfg : Option String) (devices : List RawDevice) :
    detectLoopbackCandidate Platform.linux sinkCfg (["monitor", "loopback"]) devices =
      devices.any (amendedC2LinuxCandidate sinkCfg) := by
  have hdet : detectLoopbackCandidate Platform.linux sinkCfg (["monitor", "loopback"]) devices =
      devices.any (detectCandidatePred Platform.linux (normalizeSinkHint Platform.linux sinkCfg)
        ((["monitor", "loopback"]).map lowerStr)) := rfl
  rw [hdet]
  congr 1
  funext d
  exact detect_linux_pred_eq_amended sinkCfg d

/-- Claim C6: the short-circuit existence check used by preparation returns
true exactly when the exhaustive candidate collection used by diagnostics is
non-empty, on every platform, device list, and configured sink hint. -/
theorem c6_prepare_detect_agrees_with_diagnostics (plat : Platform) (hostapis : List String)
    (cfg : AudioInputConfig) (devices : List RawDevice) :
    detectLoopbackCandidate plat cfg.linuxLoopbackSink (prepareLoopbackKeywords plat) devices =
      !((collectAudioDiagnostics plat hostapis cfg devices).loopbackCandidates.isEmpty) := by
  have hdet : detectLoopbackCandidate plat cfg.linuxLoopbackSink
      (prepareLoopbackKeywords plat) devices =
      devices.any (detectCandidatePred plat (normalizeSinkHint plat cfg.linuxLoopbackSink)
        ((prepareLoopbackKeywords plat).map lowerStr)) := rfl
  have hFields : (collectAudioDiagnostics plat hostapis cfg devices).loopbackCandidates =
      ((summariseFrom hostapis 0 devices).filter (fun s => decide (0 < s.inputs))).filter
        (collectCandidatePred plat (normalizeSinkHint plat cfg.linuxLoopbackSink)
          ((prepareLoopbackKeywords plat).map lowerStr)) := by
    simp [collectAudioDiagnostics, collectSinkHint_eq_normalizeSinkHint,
      collectKeywordTable_eq_prepareKeywords]
  have hnil := collect_candidates_nil_iff plat (normalizeSinkHint plat cfg.linuxLoopbackSink)
    ((prepareLoopbackKeywords plat).map lowerStr) hostapis devices 0
  rw [hdet, hFields]
  cases h : devices.any (detectCandidatePred plat (normalizeSinkHint plat cfg.linuxLoopbackSink)
      ((prepareLoopbackKeywords plat).map lowerStr)) with
  | false =>
    rw [hnil.mpr h]
    rfl
  | true =>
    have hne : ((summariseFrom hostapis 0 devices).filter (fun s => decide (0 < s.inputs))).filter
        (collectCandidatePred plat (normalizeSinkHint plat cfg.linuxLoopbackSink)
          ((prepareLoopbackKeywords plat).map lowerStr)) ≠ [] := by
      intro hc
      exact absurd (hnil.mp hc) (by simp [h])
    cases hfe : ((summariseFrom hostapis 0 devices).filter
        (fun s => decide (0 < s.inputs))).filter
        (collectCandidatePred plat (normalizeSinkHint plat cfg.linuxLoopbackSink)
          ((prepareLoopbackKeywords plat).map lowerStr)) with
    | nil => exact absurd hfe hne
    | cons a as => simp

/-- Claim C4: cleanup pops and runs the registered rollback actions in
reverse registration order, a raising action is logged without halting the
drain, cleanup is total, and a second cleanup on the drained stack runs
nothing. -/
theorem c4_cleanup_reverse_order_and_drained :
    (∀ acts : List RollbackAction,
      (cleanupDrain (acts.foldl (fun s a => registerCleanup a s) [])).1 =
        acts.reverse.map runCleanupAction ∧
      (cleanupDrain (acts.foldl (fun s a => registerCleanup a s) [])).2 = [] ∧
      (cleanupDrain ((cleanupDrain (acts.foldl (fun s a => registerCleanup a s) [])).2)).1 =
        []) ∧
    (∀ a b c : RollbackAction,
      (cleanupDrain (registerCleanup c (registerCleanup b (registerCleanup a [])))).1 =
        [runCleanupAction c, runCleanupAction b, runCleanupAction a]) ∧
    (∀ ident : Nat,
      runCleanupAction ⟨ident, true⟩ = CleanupEvent.loggedFailure ident) := by
  refine ⟨?_, ?_, ?_⟩
  · intro acts
    rw [foldl_registerCleanup, cleanupDrain_spec]
    simp [cleanupDrain_spec]
  · intro a b c
    simp [registerCleanup, cleanupDrain_spec]
  · intro ident
    rfl

/-- Claim C5: the diff-and-unload step unloads exactly the per-kind set
difference `after - before`, never a pre-existing instance, with every
loopback-module unload preceding every null-sink unload; on the concrete
snapshots of the claim it unloads module 3 then module 2. -/
theorem c5_diff_and_unload :
    (∀ before after : ModuleSnapshot,
      ∃ l n, unloadLinuxModules (moduleDiff before after) = l ++ n ∧
        (∀ i, i ∈ l ↔ (i ∈ after.loopIds ∧ i ∉ before.loopIds)) ∧
        (∀ i, i ∈ n ↔ (i ∈ after.nullIds ∧ i ∉ before.nullIds))) ∧
    unloadLinuxModules (moduleDiff ⟨["1"], []⟩ ⟨["1", "2"], ["3"]⟩) = ["3", "2"] := by
  constructor
  · intro b a
    refine ⟨(moduleDiff b a).loopIds, (moduleDiff b a).nullIds, rfl, ?_, ?_⟩ <;>
      intro i <;> simp [moduleDiff, List.mem_filter]
  · decide

/-- Claim C3: a configured device index outside the available range makes
prepare fail with a DeviceUnavailable-class error while running no external
effect and registering no rollback action. -/
theorem c3_out_of_range_index_fails_without_mutation (w : PrepareWorld)
    (cfg : AudioInputConfig) (i : Int)
    (hidx : cfg.deviceIndex = some i)
    (hrange : i < 0 ∨ (w.devices.length : Int) ≤ i) :
    (∃ e, (prepare w cfg).result = PrepResult.err e ∧ isDeviceUnavailable e = true) ∧
    (prepare w cfg).effects = [] ∧
    (prepare w cfg).rollbacks = [] := by
  have hensure : ∃ e, ensureDevicePresence w.devices cfg = PrepResult.err e ∧
      isDeviceUnavailable e = true := by
    unfold ensureDevicePresence
    by_cases hemp : w.devices.isEmpty = true
    · exact ⟨AudioEnvError.noDevicesDetected, by simp [hemp], rfl⟩
    · refine ⟨AudioEnvError.deviceIndexOutOfRange i w.devices.length, ?_, rfl⟩
      simp only [hemp, if_false, Bool.false_eq_true]
      rw [hidx]
      simp [hrange]
  obtain ⟨e, he, hdu⟩ := hensure
  refine ⟨⟨e, ?_, hdu⟩, ?_, ?_⟩ <;> simp [prepare, he]

/-- World used by the C3 witness: one input-capable device. -/
def c3WitnessWorld : PrepareWorld :=
  { sysPlatform := Platform.linux
    devices := [⟨"Built-in Microphone", 1, 0, 0⟩]
    pactlAvailable := true
    powershellAvailable := false
    loopbackAlreadySetEnv := none
    linuxScriptExists := false
    windowsScriptExists := false
    macosScriptExists := false
    linuxScriptSucceeds := true
    windowsScriptSucceeds := true
    macosScriptSucceeds := true
    linuxDefaults := none }

/-- Configuration used by the C3 witness: index 5 against a one-device
enumeration. -/
def c3WitnessConfig : AudioInputConfig :=
  { deviceIndex := some 5
    mode := AudioCaptureMode.microphone
    autoSetupLoopback := false
    linuxLoopbackSink := none }

/-- Witness for C3 at index 5 against a single-device enumeration. -/
theorem c3_out_of_range_witness :
    (∃ e, (prepare c3WitnessWorld c3WitnessConfig).result = PrepResult.err e ∧
      isDeviceUnavailable e = true) ∧
    (prepare c3WitnessWorld c3WitnessConfig).effects = [] ∧
    (prepare c3WitnessWorld c3WitnessConfig).rollbacks = [] :=
  c3_out_of_range_index_fails_without_mutation c3WitnessWorld c3WitnessConfig 5 rfl
    (Or.inr (by decide))

/-- Claim C7 (counterexample): with the launcher flag set but `pactl` absent
from PATH, `_prepare_linux_loopback` returns successfully even though no
loopback candidate is detected and no explicit device index is configured,
contradicting the claimed "fails ... exactly when" biconditional. -/
def c7Config : AudioInputConfig :=
  { deviceIndex := none
    mode := AudioCaptureMode.loopback
    autoSetupLoopback := true
    linuxLoopbackSink := none }

/-- World of the C7 counterexample: flag set, `pactl` missing, no devices. -/
def c7CounterWorld : PrepareWorld :=
  { sysPlatform := Platform.linux
    devices := []
    pactlAvailable := false
    powershellAvailable := false
    loopbackAlreadySetEnv := some ("1")
    linuxScriptExists := true
    windowsScriptExists := false
    macosScriptExists := false
    linuxScriptSucceeds := true
    windowsScriptSucceeds := true
    macosScriptSucceeds := true
    linuxDefaults := none }

/-- C7 counterexample theorem: preparation succeeds although no candidate is
detected and no device index is configured, so the claim as stated is false
for this state. -/
theorem c7_counterexample :
    (prepareLinuxLoopback c7CounterWorld c7Config).result = PrepResult.ok ∧
    c7Config.deviceIndex = none ∧
    detectLoopbackCandidate Platform.linux c7Config.linuxLoopbackSink
      (["monitor", "loopback"]) c7CounterWorld.devices = false := by
  decide

/-- Claim C7 as amended: on Linux, when `pactl` is available and the
loopback-already-configured flag is set, loopback preparation registers no
rollback, performs no mutating effect, can only fail with the
NoLoopbackDetected-class flag error, and does so exactly when no candidate is
detected and no explicit device index is configured. -/
theorem c7_amended_flag_verification_only (w : PrepareWorld) (cfg : AudioInputConfig)
    (hpactl : w.pactlAvailable = true)
    (hflag : w.loopbackAlreadySetEnv = some ("1")) :
    (prepareLinuxLoopback w cfg).rollbacks = [] ∧
    (∀ e ∈ (prepareLinuxLoopback w cfg).effects, isMutationEffect e = false) ∧
    ((∃ e, (prepareLinuxLoopback w cfg).result = PrepResult.err e ∧
        isNoLoopbackDetected e = true) ↔
      (cfg.deviceIndex = none ∧
        detectLoopbackCandidate Platform.linux cfg.linuxLoopbackSink
          (["monitor", "loopback"]) w.devices = false)) ∧
    (∀ e, (prepareLinuxLoopback w cfg).result = PrepResult.err e →
      e = AudioEnvError.flagSetButNoMonitor) := by
  cases hidx : cfg.deviceIndex with
  | none =>
    cases hdet : detectLoopbackCandidate Platform.linux cfg.linuxLoopbackSink
        (["monitor", "loopback"]) w.devices with
    | false =>
      simp [prepareLinuxLoopback, hpactl, hflag, hidx, hdet, isMutationEffect,
        isNoLoopbackDetected]
    | true =>
      simp [prepareLinuxLoopback, hpactl, hflag, hidx, hdet, isMutationEffect,
        isNoLoopbackDetected]
  | some k =>
    simp [prepareLinuxLoopback, hpactl, hflag, hidx, isMutationEffect]

/-- World of the C7 witness: flag set, `pactl` present, no candidate. -/
def c7WitnessWorld : PrepareWorld :=
  { sysPlatform := Platform.linux
    devices := [⟨"Built-in Microphone", 1, 0, 0⟩]
    pactlAvailable := true
    powershellAvailable := false
    loopbackAlreadySetEnv := some ("1")
    linuxScriptExists := true
    windowsScriptExists := false
    macosScriptExists := false
    linuxScriptSucceeds := true
    windowsScriptSucceeds := true
    macosScriptSucceeds := true
    linuxDefaults := none }

/-- Witness for the amended C7 at a concrete flag-set state. -/
theorem c7_amended_witness :
    (prepareLinuxLoopback c7WitnessWorld c7Config).rollbacks = [] ∧
    (∀ e ∈ (prepareLinuxLoopback c7WitnessWorld c7Config).effects,
      isMutationEffect e = false) ∧
    ((∃ e, (prepareLinuxLoopback c7WitnessWorld c7Config).result = PrepResult.err e ∧
        isNoLoopbackDetected e = true) ↔
      (c7Config.deviceIndex = none ∧
        detectLoopbackCandidate Platform.linux c7Config.linuxLoopbackSink
          (["monitor", "loopback"]) c7WitnessWorld.devices = false)) ∧
    (∀ e, (prepareLinuxLoopback c7WitnessWorld c7Config).result = PrepResult.err e →
      e = AudioEnvError.flagSetButNoMonitor) :=
  c7_amended_flag_verification_only c7WitnessWorld c7Config rfl rfl

/-- Claim C8: on Linux in effective loopback mode, with at least one
input-capable device, no loopback candidate and no configured index, the
diagnostics issues are exactly the no-candidate message and no
recommendation names candidate devices. -/
theorem c8_no_candidate_issue_exact (hostapis : List String) (cfg : AudioInputConfig)
    (devices : List RawDevice)
    (hmode : resolveCaptureMode Platform.linux cfg = AudioCaptureMode.loopback)
    (hidx : cfg.deviceIndex = none)
    (hinput : (collectAudioDiagnostics Platform.linux hostapis cfg devices).inputDevices ≠ [])
    (hnocand :
      (collectAudioDiagnostics Platform.linux hostapis cfg devices).loopbackCandidates = []) :
    (collectAudioDiagnostics Platform.linux hostapis cfg devices).issues =
      [DiagnosticIssue.noLoopbackCandidates] ∧
    ∀ names, DiagnosticRecommendation.candidateNames names ∉
      (collectAudioDiagnostics Platform.linux hostapis cfg devices).recommendations := by
  simp only [collectAudioDiagnostics] at hinput hnocand ⊢
  constructor
  · simp [hmode, hidx, hinput, hnocand]
  · intro names
    simp [hmode, hidx, hinput, hnocand]

/-- Devices of the C8 witness: a single plain microphone. -/
def c8WitnessDevices : List RawDevice := [⟨"Built-in Microphone", 1, 0, 0⟩]

/-- Configuration of the C8 witness: loopback mode, no index, no sink hint. -/
def c8WitnessConfig : AudioInputConfig :=
  { deviceIndex := none
    mode := AudioCaptureMode.loopback
    autoSetupLoopback := true
    linuxLoopbackSink := none }

/-- Witness for C8 at a concrete monitor-free Linux device list. -/
theorem c8_no_candidate_issue_witness :
    (collectAudioDiagnostics Platform.linux [] c8WitnessConfig c8WitnessDevices).issues =
      [DiagnosticIssue.noLoopbackCandidates] ∧
    ∀ names, DiagnosticRecommendation.candidateNames names ∉
      (collectAudioDiagnostics Platform.linux [] c8WitnessConfig c8WitnessDevices).recommendations :=
  c8_no_candidate_issue_exact [] c8WitnessConfig c8WitnessDevices rfl rfl
    (by decide) (by decide)

/-- Claim C9: on Linux in effective loopback mode with `pactl` missing from
PATH, prepare returns successfully with the warning as its only external
interaction — no mutation, no rollback registration, and no candidate
detection — even with no candidate present and no index configured. -/
theorem c9_pactl_missing_prepare_succeeds (w : PrepareWorld) (cfg : AudioInputConfig)
    (hplat : w.sysPlatform = Platform.linux)
    (hpactl : w.pactlAvailable = false)
    (hmode : resolveCaptureMode Platform.linux cfg = AudioCaptureMode.loopback)
    (hidx : cfg.deviceIndex = none)
    (hinput : w.devices.any (fun d => decide (0 < d.maxInputChannels)) = true) :
    (prepare w cfg).result = PrepResult.ok ∧
    (prepare w cfg).effects = [PrepEffect.warnPactlMissing] ∧
    (prepare w cfg).rollbacks = [] := by
  have hne : w.devices.isEmpty = false := by
    cases hd : w.devices with
    | nil => rw [hd] at hinput; simp at hinput
    | cons a as => rfl
  have hens : ensureDevicePresence w.devices cfg = PrepResult.ok := by
    unfold ensureDevicePresence
    rw [hidx]
    simp [hne, hinput]
  have hlin : prepareLinuxLoopback w cfg =
      { result := PrepResult.ok, effects := [PrepEffect.warnPactlMissing], rollbacks := [] } := by
    unfold prepareLinuxLoopback
    simp [hpactl]
  simp [prepare, hplat, hmode, hens, hlin]

/-- World of the C9 witness: Linux, `pactl` absent, one plain microphone. -/
def c9WitnessWorld : PrepareWorld :=
  { sysPlatform := Platform.linux
    devices := [⟨"Built-in Microphone", 1, 0, 0⟩]
    pactlAvailable := false
    powershellAvailable := false
    loopbackAlreadySetEnv := none
    linuxScriptExists := true
    windowsScriptExists := false
    macosScriptExists := false
    linuxScriptSucceeds := true
    windowsScriptSucceeds := true
    macosScriptSucceeds := true
    linuxDefaults := none }

/-- Configuration of the C9 witness. -/
def c9WitnessConfig : AudioInputConfig :=
  { deviceIndex := none
    mode := AudioCaptureMode.loopback
    autoSetupLoopback := true
    linuxLoopbackSink := none }

/-- Witness for C9 at a concrete pactl-free Linux state. -/
theorem c9_pactl_missing_witness :
    (prepare c9WitnessWorld c9WitnessConfig).result = PrepResult.ok ∧
    (prepare c9WitnessWorld c9WitnessConfig).effects = [PrepEffect.warnPactlMissing] ∧
    (prepare c9WitnessWorld c9WitnessConfig).rollbacks = [] :=
  c9_pactl_missing_prepare_succeeds c9WitnessWorld c9WitnessConfig rfl rfl rfl rfl (by decide)

/-- Claim C10: when the user declines to launch the pipeline in interactive
easy-start on Linux, both hint variables are removed from the process
environment unconditionally, whatever their prior values were. -/
theorem c10_decline_pops_unconditionally (env0 : EnvVars) :
    (easyStartDeclineEnv Platform.linux env0).headphoneSink = none ∧
    (easyStartDeclineEnv Platform.linux env0).loopbackAlreadySet = none := by
  simp [easyStartDeclineEnv]

end Transcriber
